import Mathlib

/-!
Verification development for the pix-jira MCP server core: the issue data
normalization and formatting pipeline (issue-formatter, custom-field
extraction, ADF text extraction, JIRA HTTP client error mapping, get_issue
tool validation, analyze-ticket prompt builder).

JavaScript runtime values coming from JSON are modelled by the `Json`
inductive below.  Machine behaviour that can throw (the JS `in` operator on
primitives, calling `.map` on a non-array) is modelled in the `Except String`
monad; pure total code stays pure.  Ambient JS builtins that the code calls
(`toLocaleDateString`, `toLocaleString` on dates built from given field
values, `JSON.parse`) are explicit fields of a `JsRuntime` record, together
with the clock and a randomness seed, so that (non-)dependence on them can be
stated.
-/

namespace PixMcps

/-- A JSON value, as delivered to the formatter by `response.json()`.
Numbers are modelled as integers (the fields the code consumes are counts
and identifiers; no arithmetic is performed on them). -/
inductive Json where
  | null : Json
  | bool : Bool → Json
  | num : Int → Json
  | str : String → Json
  | arr : List Json → Json
  | obj : List (String × Json) → Json

/-- First binding of a key in an object's field list (JS own-property lookup;
insertion order, first occurrence wins, as for a parsed JSON object whose
keys are unique). -/
def lookupField (fs : List (String × Json)) (k : String) : Option Json :=
  (fs.find? (fun kv => kv.1 = k)).map (fun kv => kv.2)

/-- JS property read `v[k]`: `some` = the property value, `none` = undefined.
Plain arrays and primitives have none of the properties the code reads. -/
def Json.getProp (v : Json) (k : String) : Option Json :=
  match v with
  | .obj fs => lookupField fs k
  | _ => none

/-- `typeof v === 'object'` (true for null, arrays and objects). -/
def Json.isObjectType : Json → Bool
  | .null => true
  | .arr _ => true
  | .obj _ => true
  | _ => false

/-- Is this the JSON/JS null value? -/
def Json.isNull : Json → Bool
  | .null => true
  | _ => false

/-- JS truthiness of a value. -/
def Json.truthy : Json → Bool
  | .null => false
  | .bool b => b
  | .num n => n != 0
  | .str s => s ≠ ""
  | .arr _ => true
  | .obj _ => true

/-- JS string coercion `String(v)` (used by template literals and by
`Array.prototype.join`, which renders null elements as the empty string). -/
def jsToString : Json → String
  | .null => "null"
  | .bool b => if b then "true" else "false"
  | .num n => toString n
  | .str s => s
  | .obj _ => "[object Object]"
  | .arr xs =>
    String.intercalate ","
      (xs.attach.map (fun c => if c.1.isNull then "" else jsToString c.1))
decreasing_by
  have h := List.sizeOf_lt_of_mem c.2
  simp only [Json.arr.sizeOf_spec]
  omega

/-- Truthiness of a possibly-undefined JS value (property-read result). -/
def optTruthy : Option Json → Bool
  | none => false
  | some j => j.truthy

/-! ## ADF text extraction (`extractTextFromADF`, issue-formatter.ts) -/

/-- The elements of `adf.content` when that property holds an array,
`[]` otherwise. -/
def contentChildren (adf : Json) : List Json :=
  match adf.getProp "content" with
  | some (.arr xs) => xs
  | _ => []

/-- Does `adf.content` hold an array? (`Array.isArray(adf.content)`) -/
def hasArrayContent (adf : Json) : Bool :=
  match adf.getProp "content" with
  | some (.arr _) => true
  | _ => false

theorem lookupField_sizeOf {fs : List (String × Json)} {k : String} {v : Json}
    (h : lookupField fs k = some v) : sizeOf v < 1 + sizeOf fs := by
  unfold lookupField at h
  cases hf : fs.find? (fun kv => kv.1 = k) with
  | none => rw [hf] at h; simp at h
  | some kv =>
    rw [hf] at h
    simp only [Option.map_some', Option.some.injEq] at h
    have hm := List.mem_of_find?_eq_some hf
    have hs := List.sizeOf_lt_of_mem hm
    have h2 : sizeOf kv.2 < sizeOf kv := by
      obtain ⟨a, b⟩ := kv
      dsimp only
      simp only [Prod.mk.sizeOf_spec]
      omega
    rw [h] at h2
    omega

theorem getProp_sizeOf {adf : Json} {k : String} {v : Json}
    (h : adf.getProp k = some v) : sizeOf v < sizeOf adf := by
  unfold Json.getProp at h
  cases adf with
  | obj fs =>
    have := lookupField_sizeOf h
    simp only [Json.obj.sizeOf_spec]
    omega
  | null => simp at h
  | bool b => simp at h
  | num n => simp at h
  | str s => simp at h
  | arr xs => simp at h

theorem contentChildren_sizeOf {adf c : Json} (h : c ∈ contentChildren adf) :
    sizeOf c < sizeOf adf := by
  unfold contentChildren at h
  cases hg : adf.getProp "content" with
  | none => rw [hg] at h; simp at h
  | some v =>
    rw [hg] at h
    cases v with
    | arr xs =>
      dsimp only at h
      have h1 := List.sizeOf_lt_of_mem h
      have h2 := getProp_sizeOf hg
      simp only [Json.arr.sizeOf_spec] at h2
      omega
    | null => simp at h
    | bool b => simp at h
    | num n => simp at h
    | str s => simp at h
    | obj fs => simp at h

/-- `extractTextFromADF` (issue-formatter.ts:209-227).  Note the branch
structure of the source: any node whose `content` property is an array is
handled by the first branch (children joined with a blank line); the
dedicated `paragraph` branch joining children with `''` is therefore
unreachable, since its guard repeats `Array.isArray(adf.content)`. -/
def extractTextFromADF (adf : Json) : String :=
  if ¬adf.truthy ∨ ¬adf.isObjectType then ""
  else if hasArrayContent adf then
    String.intercalate "\n\n"
      (((contentChildren adf).attach.map (fun c => extractTextFromADF c.1)).filter
        (fun s => s ≠ ""))
  else if ((match adf.getProp "type" with
            | some (.str t) => t == "text"
            | _ => false) && optTruthy (adf.getProp "text")) then
    jsToString ((adf.getProp "text").getD Json.null)
  else if ((match adf.getProp "type" with
            | some (.str t) => t == "paragraph"
            | _ => false) && hasArrayContent adf) then
    String.intercalate ""
      (((contentChildren adf).attach.map (fun c => extractTextFromADF c.1)).filter
        (fun s => s ≠ ""))
  else ""
termination_by sizeOf adf
decreasing_by
  all_goals exact contentChildren_sizeOf c.2

/-- Unfolding equation for `extractTextFromADF` with the recursive calls
mapped directly over the children list. -/
theorem extractTextFromADF_eq (adf : Json) :
    extractTextFromADF adf =
      if ¬adf.truthy ∨ ¬adf.isObjectType then ""
      else if hasArrayContent adf then
        String.intercalate "\n\n"
          (((contentChildren adf).map extractTextFromADF).filter (fun s => s ≠ ""))
      else if ((match adf.getProp "type" with
                | some (.str t) => t == "text"
                | _ => false) && optTruthy (adf.getProp "text")) then
        jsToString ((adf.getProp "text").getD Json.null)
      else if ((match adf.getProp "type" with
                | some (.str t) => t == "paragraph"
                | _ => false) && hasArrayContent adf) then
        String.intercalate ""
          (((contentChildren adf).map extractTextFromADF).filter (fun s => s ≠ ""))
      else "" := by
  rw [extractTextFromADF]
  simp only [List.attach_map_val]

/-- A text leaf node. -/
def adfText (s : String) : Json :=
  Json.obj [("type", Json.str "text"), ("text", Json.str s)]

/-- A paragraph node with the given children. -/
def adfParagraph (children : List Json) : Json :=
  Json.obj [("type", Json.str "paragraph"), ("content", Json.arr children)]

/-- A doc node with the given children. -/
def adfDoc (children : List Json) : Json :=
  Json.obj [("type", Json.str "doc"), ("content", Json.arr children)]

/-! ## Custom field value extraction (issue-formatter.ts:293-333)

The JS `in` operator throws a TypeError when its right operand is not an
object, and calling `.map` on a non-array throws; those are the only
potentially-throwing operations in these functions, so they are embedded in
`Except String` with those operations raising errors exactly when JS would. -/

/-- `k in v` in JS: `Except.error` on primitives and null (TypeError), the
own-property test on objects; plain arrays have none of the looked-up
properties. -/
def jsHasProp (k : String) (v : Json) : Except String Bool :=
  match v with
  | .obj fs => .ok (fs.any (fun kv => kv.1 = k))
  | .arr _ => .ok false
  | _ => .error "TypeError: cannot use in operator"

/-- The element mapper inside `extractArrayFieldValue`
(issue-formatter.ts:316-329): `some` = the raw JS value returned,
`none` = the JS `null` return. -/
def extractArrayItem (item : Json) : Except String (Option Json) := do
  if item.isObjectType && !item.isNull then
    if (← jsHasProp "value" item) then
      return item.getProp "value"
    else if (← jsHasProp "name" item) then
      return item.getProp "name"
  if let .str _ := item then
    return some item
  return none

/-- JS `Array.prototype.map` with a possibly-throwing callback:
left-to-right, aborting on the first throw. -/
def mapThrow (f : Json → Except String (Option Json)) :
    List Json → Except String (List (Option Json))
  | [] => .ok []
  | x :: xs => do
    let r ← f x
    let rs ← mapThrow f xs
    return r :: rs

/-- `extractArrayFieldValue` (issue-formatter.ts:314-333): map the elements,
`filter(Boolean)`, and join the surviving raw values with `", "` (JS
string-coercing join); `none` when nothing survives. -/
def extractArrayFieldValue (values : List Json) : Except String (Option String) := do
  let mapped ← mapThrow extractArrayItem values
  let names := (mapped.filterMap id).filter Json.truthy
  if names.length > 0 then
    return some (String.intercalate ", " (names.map jsToString))
  else
    return none

/-- `extractCustomFieldValue` (issue-formatter.ts:293-312).  The raw JS
return value is a `Json` (`value`/`name` properties are returned as-is;
scalars are stringified; arrays delegate to `extractArrayFieldValue`);
`none` = the JS `null` return. -/
def extractCustomFieldValue (value : Json) : Except String (Option Json) := do
  if value.isObjectType && !value.isNull then
    if (← jsHasProp "value" value) then
      return value.getProp "value"
    else if (← jsHasProp "name" value) then
      return value.getProp "name"
  match value with
  | .str s => return some (Json.str s)
  | .num n => return some (Json.str (toString n))
  | .arr xs =>
    let r ← extractArrayFieldValue xs
    return r.map Json.str
  | _ => return none

/-- The call `extractArrayFieldValue(fields[...])` made by
`extractCustomFields` (issue-formatter.ts:236) passes the raw field value
without an array check: on a non-array JS throws (`values.map` is not a
function). -/
def extractArrayFieldValueJS (v : Json) : Except String (Option String) :=
  match v with
  | .arr xs => extractArrayFieldValue xs
  | _ => .error "TypeError: values.map is not a function"

/-! ## JS ambient runtime

The formatter calls `new Date(v).toLocaleDateString()`,
`new Date(v).toLocaleString()` and `JSON.parse` — deterministic builtins
whose output depends on the ambient locale/timezone but not on the clock.
They are modelled as explicit function fields; `now` and `random` model the
ambient clock and randomness source, which the code never reads. -/

structure JsRuntime where
  /-- `new Date(v).toLocaleDateString()`; the argument is the JS value
  passed to the `Date` constructor (`none` = undefined). -/
  localeDate : Option Json → String
  /-- `new Date(v).toLocaleString()`. -/
  localeString : Option Json → String
  /-- `JSON.parse`; `none` = the parse throws a SyntaxError. -/
  parseJson : String → Option Json
  /-- The ambient clock (`Date.now()` / `new Date()`), never read. -/
  now : String
  /-- The ambient randomness source (`Math.random()`), never read. -/
  random : Nat

/-! ## Development info extraction (`extractDevelopmentInfo`,
issue-formatter.ts:266-291) -/

/-- Does `pat` occur at the head of `cs`? -/
def charsLeadWith : List Char → List Char → Bool
  | [], _ => true
  | _ :: _, [] => false
  | p :: ps, c :: cs => p = c && charsLeadWith ps cs

/-- Leftmost match of `/repository=\x7bcount=(\d+)/`: the literal prefix
followed by at least one digit; returns the captured digit run. -/
def findRepoCount : List Char → Option (List Char)
  | [] => none
  | c :: cs =>
    if charsLeadWith "repository=\x7bcount=".toList (c :: cs) then
      let ds := ((c :: cs).drop "repository=\x7bcount=".length).takeWhile Char.isDigit
      if ds.isEmpty then findRepoCount cs else some ds
    else findRepoCount cs

/-- The rest of the current line (`.` in a JS regex matches neither `\n`
nor `\r`). -/
def lineSpan (cs : List Char) : List Char :=
  cs.takeWhile (fun c => c ≠ '\n' ∧ c ≠ '\r')

/-- Index of the last occurrence of `c` in `cs`. -/
def lastIdxOf (c : Char) (cs : List Char) : Option Nat :=
  match cs.reverse.findIdx? (fun x => x = c) with
  | some i => some (cs.length - 1 - i)
  | none => none

/-- Leftmost match of `/json=(\x7b.*\x7d)/` (greedy `.*`, no newlines):
after a literal `json=`, the capture runs from the opening brace to the last
closing brace on the same line. -/
def findJsonCapture : List Char → Option (List Char)
  | [] => none
  | c :: cs =>
    if charsLeadWith "json=\x7b".toList (c :: cs) then
      let braceTail := (c :: cs).drop 5
      let line := lineSpan braceTail
      match lastIdxOf '\x7d' line with
      | some j => if 1 ≤ j then some (line.take (j + 1)) else findJsonCapture cs
      | none => findJsonCapture cs
    else findJsonCapture cs

/-- `x?.k` applied to a possibly-undefined value: undefined/null
short-circuit to undefined; property reads on primitives yield undefined. -/
def jsOptGet (v : Option Json) (k : String) : Option Json :=
  match v with
  | none => none
  | some .null => none
  | some j => j.getProp k

/-- Interpolation of a possibly-undefined value into a template literal. -/
def jsInterp : Option Json → String
  | none => "undefined"
  | some j => jsToString j

/-- `extractDevelopmentInfo` (issue-formatter.ts:266-291).  Only called with
the raw field value; non-strings yield `none` immediately.  JSON.parse
failures and the property access on a parsed `null` are the only throwing
operations inside the `try`, both yielding the fixed fallback string. -/
def extractDevelopmentInfo (rt : JsRuntime) (devData : Json) : Option String :=
  match devData with
  | .str s =>
    match findRepoCount s.toList with
    | some ds => some (String.mk ds ++ " repository/repositories linked")
    | none =>
      match findJsonCapture s.toList with
      | some cap =>
        match rt.parseJson (String.mk cap) with
        | none => some "Development info available (view in JIRA)"
        | some json =>
          if json.isNull then
            some "Development info available (view in JIRA)"
          else
            let repoData :=
              jsOptGet (jsOptGet (jsOptGet (json.getProp "cachedValue") "summary")
                "repository") "overall"
            if optTruthy repoData then
              match repoData with
              | some rd =>
                some (jsInterp (rd.getProp "count") ++
                  " repository/repositories, last updated " ++
                  rt.localeDate (rd.getProp "lastUpdated"))
              | none => none
            else none
      | none => none
  | _ => none

/-! ## Issue data model (types/jira.ts)

Structures carry exactly the attributes the embedded code reads; identifier
and avatar metadata fields that no embedded function consumes are omitted.
`description` and comment bodies may be plain strings or ADF documents, so
they are kept as raw `Json` (`Json.null` = absent). The open-ended
`[key: string]: unknown` custom fields are an insertion-ordered key/value
list. -/

structure JiraUser where
  displayName : String

structure JiraStatusCategory where
  name : String

structure JiraStatus where
  name : String
  statusCategory : JiraStatusCategory

structure JiraPriority where
  name : String

structure JiraVersion where
  name : String
  released : Bool
  releaseDate : Option String

structure JiraIssueType where
  name : String

structure JiraProject where
  key : String
  name : String

structure JiraParentFields where
  summary : String
  issuetype : JiraIssueType

structure JiraParent where
  key : String
  fields : JiraParentFields

structure JiraLinkType where
  inward : String
  outward : String

structure JiraLinkedIssueFields where
  summary : String

structure JiraLinkedIssue where
  key : String
  fields : JiraLinkedIssueFields

structure JiraIssueLink where
  type : JiraLinkType
  inwardIssue : Option JiraLinkedIssue
  outwardIssue : Option JiraLinkedIssue

structure JiraComment where
  author : JiraUser
  body : Json
  created : String

structure JiraCommentBlock where
  comments : List JiraComment
  total : Nat

structure JiraIssueFields where
  summary : String
  description : Json
  status : JiraStatus
  assignee : Option JiraUser
  reporter : JiraUser
  priority : JiraPriority
  created : String
  updated : String
  labels : List String
  fixVersions : List JiraVersion
  issuetype : JiraIssueType
  project : JiraProject
  parent : Option JiraParent
  issuelinks : Option (List JiraIssueLink)
  comment : Option JiraCommentBlock
  customFields : List (String × Json)

structure JiraIssue where
  key : String
  self : String
  fields : JiraIssueFields

/-- `fields[k]` for a custom field key: `none` = undefined. -/
def customField (fields : JiraIssueFields) (k : String) : Option Json :=
  lookupField fields.customFields k

/-! ## Issue formatter (issue-formatter.ts) -/

def RECENT_COMMENTS_LIMIT : Nat := 3

/-- `formatDescription` (issue-formatter.ts:192-203). -/
def formatDescription (description : Json) : String :=
  match description with
  | .str s => s
  | _ =>
    if description.isObjectType && !description.isNull then
      let extractedText := extractTextFromADF description
      if extractedText ≠ "" then extractedText
      else "[Complex formatted content - view in JIRA]"
    else "[No description]"

def formatIssueHeader (issue : JiraIssue) : String :=
  "# " ++ issue.key ++ ": " ++ issue.fields.summary ++ "\n"

def formatBasicInformation (fields : JiraIssueFields) : String :=
  String.intercalate "\n"
    ["## Basic Information",
     "",
     "- **Status**: " ++ fields.status.name ++ " (" ++ fields.status.statusCategory.name ++ ")",
     "- **Type**: " ++ fields.issuetype.name,
     "- **Priority**: " ++ fields.priority.name,
     "- **Project**: " ++ fields.project.name ++ " (" ++ fields.project.key ++ ")",
     ""]

def formatPeopleSection (fields : JiraIssueFields) : String :=
  let assigneeName :=
    match fields.assignee with
    | some u => u.displayName
    | none => "Unassigned"
  String.intercalate "\n"
    ["## People",
     "",
     "- **Assignee**: " ++ assigneeName,
     "- **Reporter**: " ++ fields.reporter.displayName,
     ""]

def formatParentIssueSection (fields : JiraIssueFields) : String :=
  match fields.parent with
  | none => ""
  | some parent =>
    String.intercalate "\n"
      ["## Parent Issue",
       "",
       "- **" ++ parent.key ++ "**: " ++ parent.fields.summary,
       "- **Type**: " ++ parent.fields.issuetype.name,
       ""]

def formatDescriptionSection (fields : JiraIssueFields) : String :=
  if !fields.description.truthy then ""
  else
    String.intercalate "\n"
      ["## Description", "", formatDescription fields.description, ""]

def formatLabelsSection (fields : JiraIssueFields) : String :=
  if fields.labels.isEmpty then ""
  else
    let labelsList := String.intercalate "\n" (fields.labels.map (fun l => "- " ++ l))
    "## Labels\n\n" ++ labelsList ++ "\n"

def formatFixVersionsSection (fields : JiraIssueFields) : String :=
  if fields.fixVersions.isEmpty then ""
  else
    let versionLines := fields.fixVersions.map (fun version =>
      let releaseStatus := if version.released then "✓ Released" else "○ Unreleased"
      let releaseDate :=
        match version.releaseDate with
        | some d => if d ≠ "" then " (" ++ d ++ ")" else ""
        | none => ""
      "- " ++ version.name ++ " " ++ releaseStatus ++ releaseDate)
    String.intercalate "\n" (["## Fix Versions", ""] ++ versionLines ++ [""])

def formatRelatedIssuesSection (fields : JiraIssueFields) : String :=
  match fields.issuelinks with
  | none => ""
  | some links =>
    if links.isEmpty then ""
    else
      let linkLines := links.flatMap (fun link =>
        (match link.outwardIssue with
         | some o =>
           ["- **" ++ link.type.outward ++ "**: " ++ o.key ++ " - " ++ o.fields.summary]
         | none => []) ++
        (match link.inwardIssue with
         | some i =>
           ["- **" ++ link.type.inward ++ "**: " ++ i.key ++ " - " ++ i.fields.summary]
         | none => []))
      String.intercalate "\n" (["## Related Issues", ""] ++ linkLines ++ [""])

/-- `extractCustomFields` (issue-formatter.ts:232-264): the allow-list of
Pix custom fields, in insertion order.  The stored values are the raw JS
values the extractors return (strings for the array/development fields). -/
def extractCustomFields (rt : JsRuntime) (fields : JiraIssueFields) :
    Except String (List (String × Json)) := do
  let mut customFields : List (String × Json) := []
  if optTruthy (customField fields "customfield_10253") then
    let equipix ← extractArrayFieldValueJS
      ((customField fields "customfield_10253").getD Json.null)
    match equipix with
    | some s => if s ≠ "" then customFields := customFields ++ [("Equipe Pix", Json.str s)]
    | none => pure ()
  if optTruthy (customField fields "customfield_10117") then
    let appliPix ← extractCustomFieldValue
      ((customField fields "customfield_10117").getD Json.null)
    match appliPix with
    | some v => if v.truthy then customFields := customFields ++ [("Appli Pix", v)]
    | none => pure ()
  if optTruthy (customField fields "customfield_10000") then
    let development := extractDevelopmentInfo rt
      ((customField fields "customfield_10000").getD Json.null)
    match development with
    | some s => if s ≠ "" then customFields := customFields ++ [("Development", Json.str s)]
    | none => pure ()
  if optTruthy (customField fields "customfield_10257") then
    let semester ← extractCustomFieldValue
      ((customField fields "customfield_10257").getD Json.null)
    match semester with
    | some v => if v.truthy then customFields := customFields ++ [("Resolution Semester", v)]
    | none => pure ()
  return customFields

def formatCustomFieldsSection (rt : JsRuntime) (fields : JiraIssueFields) :
    Except String String := do
  let customFields ← extractCustomFields rt fields
  if customFields.isEmpty then
    return ""
  let entryLines := (customFields.filter (fun kv => kv.2.truthy)).map
    (fun kv => "- **" ++ kv.1 ++ "**: " ++ jsToString kv.2)
  return String.intercalate "\n" (["## Pix Custom Fields", ""] ++ entryLines ++ [""])

def formatCommentsSection (rt : JsRuntime) (fields : JiraIssueFields) : String :=
  match fields.comment with
  | none => ""
  | some commentBlock =>
    if commentBlock.total = 0 then ""
    else
      let headerLines := ["## Comments", "",
        "Total comments: " ++ toString commentBlock.total]
      let commentLines :=
        if !commentBlock.comments.isEmpty then
          let recentComments := commentBlock.comments.drop
            (commentBlock.comments.length - RECENT_COMMENTS_LIMIT)
          ["", "### Recent Comments:", ""] ++
            recentComments.flatMap (fun comment =>
              ["**" ++ comment.author.displayName ++ "** (" ++
                 rt.localeDate (some (Json.str comment.created)) ++ "):",
               formatDescription comment.body,
               ""])
        else []
      String.intercalate "\n" (headerLines ++ commentLines ++ [""])

def formatTimelineSection (rt : JsRuntime) (fields : JiraIssueFields) : String :=
  String.intercalate "\n"
    ["## Timeline",
     "",
     "- **Created**: " ++ rt.localeString (some (Json.str fields.created)),
     "- **Updated**: " ++ rt.localeString (some (Json.str fields.updated)),
     ""]

/-- Replace the first occurrence of `pat` in a character list. -/
def replaceFirstChars (pat repl : List Char) : List Char → List Char
  | [] => []
  | c :: cs =>
    if charsLeadWith pat (c :: cs) && !pat.isEmpty then
      repl ++ (c :: cs).drop pat.length
    else c :: replaceFirstChars pat repl cs

/-- JS `String.prototype.replace` with a string pattern: first occurrence
only. -/
def replaceFirst (s pat repl : String) : String :=
  if pat = "" then repl ++ s
  else String.mk (replaceFirstChars pat.toList repl.toList s.toList)

def formatIssueLink (issue : JiraIssue) : String :=
  let browseUrl := replaceFirst issue.self "/rest/api/3/issue/" "/browse/"
  "**View in JIRA**: " ++ browseUrl

/-- `formatIssue` (issue-formatter.ts:15-32): the twelve sections in fixed
order, empty sections dropped, joined with a horizontal-rule separator. -/
def formatIssue (rt : JsRuntime) (issue : JiraIssue) : Except String String := do
  let customFieldsSection ← formatCustomFieldsSection rt issue.fields
  let sections : List String :=
    [formatIssueHeader issue,
     formatBasicInformation issue.fields,
     formatPeopleSection issue.fields,
     formatParentIssueSection issue.fields,
     formatDescriptionSection issue.fields,
     formatLabelsSection issue.fields,
     formatFixVersionsSection issue.fields,
     formatRelatedIssuesSection issue.fields,
     customFieldsSection,
     formatCommentsSection rt issue.fields,
     formatTimelineSection rt issue.fields,
     formatIssueLink issue]
  return String.intercalate "\n---\n\n" (sections.filter (fun s => s ≠ ""))

/-- `formatIssueSummary` (issue-formatter.ts:338-341). -/
def formatIssueSummary (issue : JiraIssue) : String :=
  let assigneeName :=
    match issue.fields.assignee with
    | some u => u.displayName
    | none => "Unassigned"
  issue.key ++ ": " ++ issue.fields.summary ++ " [" ++ issue.fields.status.name ++
    "] - " ++ assigneeName

/-! ## JIRA client error mapping (jira-client.ts) -/

/-- `JiraApiException` (message, optional status code; the diagnostic
`details` payload is never surfaced and is omitted). -/
structure JiraApiException where
  message : String
  statusCode : Option Nat
  deriving DecidableEq

/-- The JSON error body shape `JiraApiError` (types/jira.ts):
`errorMessages?: string[]`, `errors?: Record<string, string>` (entries in
insertion order). -/
structure JiraApiError where
  errorMessages : Option (List String)
  errors : Option (List (String × String))

/-- `parseJiraErrorData` (jira-client.ts:120-133). -/
def parseJiraErrorData (errorData : JiraApiError) : Option String :=
  match errorData.errorMessages with
  | some msgs =>
    if msgs.length > 0 then some (String.intercalate ", " msgs)
    else
      match errorData.errors with
      | some es => some (String.intercalate ", " (es.map (fun p => p.1 ++ ": " ++ p.2)))
      | none => none
  | none =>
    match errorData.errors with
    | some es => some (String.intercalate ", " (es.map (fun p => p.1 ++ ": " ++ p.2)))
    | none => none

/-- `extractErrorMessage` (jira-client.ts:109-118): structured body message
(`|| defaultMessage`, so an empty extracted string also falls back), or on a
body that fails to parse as JSON the status text (`|| defaultMessage`). -/
def extractErrorMessage (status : Nat) (statusText : String)
    (errorBody : Option JiraApiError) : String :=
  let defaultMessage := "JIRA API request failed with status " ++ toString status
  match errorBody with
  | some errorData =>
    match parseJiraErrorData errorData with
    | some m => if m = "" then defaultMessage else m
    | none => defaultMessage
  | none => if statusText = "" then defaultMessage else statusText

/-- The fixed status-code message table of `createUserFriendlyException`
(jira-client.ts:136-144), as the record lookup `errorMessages[statusCode]`. -/
def fixedStatusMessage (n : Nat) : Option String :=
  if n = 401 then some "Authentication failed. Please check your JIRA email and API token."
  else if n = 403 then some "Access denied. You do not have permission to access this resource."
  else if n = 404 then some "The requested JIRA issue was not found."
  else if n = 429 then some "Rate limit exceeded. Please try again later."
  else if n = 500 then some "JIRA service is currently unavailable. Please try again later."
  else if n = 502 then some "JIRA service is currently unavailable. Please try again later."
  else if n = 503 then some "JIRA service is currently unavailable. Please try again later."
  else none

/-- `createUserFriendlyException` (jira-client.ts:135-148). -/
def createUserFriendlyException (statusCode : Nat) (defaultMessage : String) :
    JiraApiException :=
  { message := (fixedStatusMessage statusCode).getD defaultMessage
    statusCode := some statusCode }

/-- The connectivity message of `handleRequestError` (jira-client.ts:91-95). -/
def connectionErrorMessage : String :=
  "Failed to connect to JIRA. Please check your network connection and JIRA URL."

/-- An HTTP response as the client consumes it.  `okBody` models the result
of `response.json()` on the success path (`none` = the body is not valid
JSON and the parse throws); `errorBody` models the same parse interpreted as
the `JiraApiError` shape on the failure path. -/
structure HttpResponse where
  status : Nat
  statusText : String
  okBody : Option Json
  errorBody : Option JiraApiError

/-- What `fetch` yields: a response, or a transport-level failure (the
promise rejects with no response at all). -/
inductive FetchOutcome where
  | success : HttpResponse → FetchOutcome
  | networkFailure : FetchOutcome

/-- `JiraClient.request` (jira-client.ts:55-71) together with
`handleErrorResponse` and `handleRequestError`: non-2xx statuses raise the
user-friendly exception built from the extracted error message; a transport
failure, or a 2xx response whose body fails to parse as JSON, raises the
generic connectivity exception with no status code. -/
def jiraRequest (outcome : FetchOutcome) : Except JiraApiException Json :=
  match outcome with
  | .networkFailure => .error { message := connectionErrorMessage, statusCode := none }
  | .success r =>
    if 200 ≤ r.status ∧ r.status ≤ 299 then
      match r.okBody with
      | some j => .ok j
      | none => .error { message := connectionErrorMessage, statusCode := none }
    else
      .error (createUserFriendlyException r.status
        (extractErrorMessage r.status r.statusText r.errorBody))

/-! ## get_issue tool (get-issue.ts) -/

/-- The `^[A-Z]+-\d+$` issue key pattern of `issueKeySchema`: one or more
uppercase letters, a dash, one or more digits, nothing else. -/
def issueKeyMatches (s : String) : Bool :=
  let cs := s.toList
  let letters := cs.takeWhile (fun c => 'A' ≤ c ∧ c ≤ 'Z')
  let rest := cs.dropWhile (fun c => 'A' ≤ c ∧ c ≤ 'Z')
  !letters.isEmpty &&
    match rest with
    | '-' :: ds => !ds.isEmpty && ds.all (fun c => '0' ≤ c ∧ c ≤ '9')
    | _ => false

/-- `normalizeIssueKey`: trim then upper-case. -/
def normalizeIssueKey (issueKey : String) : String :=
  issueKey.trim.toUpper

def STANDARD_ISSUE_FIELDS : List String :=
  ["summary", "description", "status", "assignee", "reporter", "priority",
   "created", "updated", "labels", "fixVersions", "issuetype", "project",
   "parent", "issuelinks", "customfield_*"]

/-- `buildFetchOptions` (get-issue.ts): the standard fields plus `comment`
and the `renderedFields` expansion when comments are requested. -/
def buildFetchOptions (includeComments : Bool) : List String × List String :=
  if includeComments then (STANDARD_ISSUE_FIELDS ++ ["comment"], ["renderedFields"])
  else (STANDARD_ISSUE_FIELDS, [])

/-- A JS thrown value as the tool handlers classify it:
the client's typed exception, some other `Error`, or a non-`Error` value. -/
inductive Thrown where
  | jiraApi : JiraApiException → Thrown
  | otherError : String → Thrown
  | nonError : Thrown

/-- What a `get_issue` invocation produces at the protocol boundary:
a thrown validation error (the schema rejects the arguments before the
handler body runs), or a response with an `isError` flag. -/
inductive ToolOutcome where
  | validationError : String → ToolOutcome
  | response : String → Bool → ToolOutcome

def issueKeyPatternMessage : String :=
  "Issue key must be in format: PROJECT-NUMBER (e.g., PROJ-1234)"

/-- `handleFetchError` (get-issue.ts:104-121 of the schema-validating
variant): the typed exception's message verbatim, other errors wrapped,
non-errors mapped to a fixed message; always an `isError` response with the
`Error: ` prefix. -/
def handleFetchError (error : Thrown) : ToolOutcome :=
  let errorMessage :=
    match error with
    | .jiraApi e => e.message
    | .otherError m => "Failed to retrieve issue: " ++ m
    | .nonError => "An unexpected error occurred while retrieving the issue."
  .response ("Error: " ++ errorMessage) true

/-- The `get_issue` tool handler (get-issue.ts:66-84): argument validation
against the issue-key pattern happens before the try block; only a key that
passes the pattern reaches `jiraClient.getIssue`.  `getIssue` is the
client's behaviour, abstracted as a function of the (normalized key, fields,
expand) request; the second component of the result records every request
issued to it. -/
def runGetIssueHandler (rt : JsRuntime) (issueKey : String) (includeComments : Bool)
    (getIssue : String → List String → List String → Except Thrown JiraIssue) :
    ToolOutcome × List (String × List String × List String) :=
  if !issueKeyMatches issueKey then
    (.validationError issueKeyPatternMessage, [])
  else
    let normalizedIssueKey := normalizeIssueKey issueKey
    let opts := buildFetchOptions includeComments
    let calls := [(normalizedIssueKey, opts.1, opts.2)]
    match getIssue normalizedIssueKey opts.1 opts.2 with
    | .ok issue =>
      match formatIssue rt issue with
      | .ok formattedIssue => (.response formattedIssue false, calls)
      | .error m => (handleFetchError (.otherError m), calls)
    | .error e => (handleFetchError e, calls)

/-! ## analyze_ticket prompt builder (prompts/analyze-ticket.ts) -/

def ISSUE_FIELDS_TO_FETCH : List String :=
  ["summary", "description", "status", "assignee", "priority", "labels",
   "issuetype", "parent", "issuelinks", "customfield_*"]

/-- Own-property test on a value known to be a non-null object (pure: the
`in` operator cannot throw there). -/
def hasOwnProp (k : String) (v : Json) : Bool :=
  match v with
  | .obj fs => fs.any (fun kv => kv.1 = k)
  | _ => false

/-- `item?.value || item?.name || item` inside `extractFieldValue`
(analyze-ticket.ts:160). -/
def analyzeArrayItemValue (item : Json) : Json :=
  let v := jsOptGet (some item) "value"
  let n := jsOptGet (some item) "name"
  if optTruthy v then v.getD Json.null
  else if optTruthy n then n.getD Json.null
  else item

/-- `extractFieldValue` (analyze-ticket.ts:150-167); `none` = the JS `null`
return, `some` = the raw returned value. -/
def extractFieldValue (value : Json) : Option Json :=
  match value with
  | .str s => some (Json.str s)
  | .num n => some (Json.str (toString n))
  | _ =>
    if value.truthy && value.isObjectType then
      if hasOwnProp "value" value then value.getProp "value"
      else if hasOwnProp "name" value then value.getProp "name"
      else
        match value with
        | .arr items =>
          some (Json.str (String.intercalate ", "
            (((items.map analyzeArrayItemValue).filter Json.truthy).map jsToString)))
        | _ => none
    else none

/-- `extractCustomFieldsText` (analyze-ticket.ts:128-148): one line per
`customfield_`-prefixed key with a truthy value and a truthy extracted
value. -/
def extractCustomFieldsText (fields : JiraIssueFields) : String :=
  let customFieldLines := fields.customFields.flatMap (fun kv =>
    if kv.1.startsWith "customfield_" then
      if kv.2.truthy then
        match extractFieldValue kv.2 with
        | some v => if v.truthy then ["- " ++ kv.1 ++ ": " ++ jsToString v] else []
        | none => []
      else []
    else [])
  if !customFieldLines.isEmpty then
    "**Custom Fields:**\n" ++ String.intercalate "\n" customFieldLines
  else ""

/-- `formatIssueForAnalysis` (analyze-ticket.ts:34-126): the condensed
issue dump, built section by section and joined with `\n`. -/
def formatIssueForAnalysis (issue : JiraIssue) : String :=
  let fields := issue.fields
  let basicInformation :=
    ["**Key:** " ++ issue.key,
     "**Type:** " ++ (if fields.issuetype.name ≠ "" then fields.issuetype.name else "Unknown"),
     "**Status:** " ++ (if fields.status.name ≠ "" then fields.status.name else "Unknown")] ++
    (if fields.priority.name ≠ "" then ["**Priority:** " ++ fields.priority.name] else [])
  let summarySection :=
    ["", "**Summary:**", if fields.summary ≠ "" then fields.summary else "No summary"]
  let descriptionSection :=
    if !fields.description.truthy then []
    else
      ["", "**Description:**",
       match fields.description with
       | .str s => s
       | _ => "[Complex formatted content]"]
  let parentSection :=
    match fields.parent with
    | none => []
    | some parent => ["", "**Parent Issue:** " ++ parent.key ++ " - " ++ parent.fields.summary]
  let labelsSection :=
    if fields.labels.isEmpty then []
    else ["", "**Labels:** " ++ String.intercalate ", " fields.labels]
  let relatedIssuesSection :=
    match fields.issuelinks with
    | none => []
    | some links =>
      if links.isEmpty then []
      else
        ["", "**Related Issues:**"] ++
          links.flatMap (fun link =>
            (match link.outwardIssue with
             | some o =>
               ["- " ++ (if link.type.outward ≠ "" then link.type.outward else "relates to") ++
                  ": " ++ o.key ++ " - " ++ o.fields.summary]
             | none => []) ++
            (match link.inwardIssue with
             | some i =>
               ["- " ++ (if link.type.inward ≠ "" then link.type.inward else "relates to") ++
                  ": " ++ i.key ++ " - " ++ i.fields.summary]
             | none => []))
  let customFieldsSection :=
    let customFieldsText := extractCustomFieldsText fields
    if customFieldsText ≠ "" then ["", customFieldsText] else []
  let jiraLinkSection :=
    let replaced := replaceFirst issue.self "/rest/api/3/issue/" "/browse/"
    let browseUrl :=
      if replaced ≠ "" then replaced else "https://jira.example.com/browse/" ++ issue.key
    ["", "**View in JIRA:** " ++ browseUrl]
  String.intercalate "\n"
    (basicInformation ++ summarySection ++ descriptionSection ++ parentSection ++
      labelsSection ++ relatedIssuesSection ++ customFieldsSection ++ jiraLinkSection)

/-- `createAnalysisPromptMessage` (analyze-ticket.ts:169-197): the fixed
instructional preamble followed by the ticket details. -/
def createAnalysisPromptMessage (issueDetails : String) : String :=
  "Please analyze the following JIRA ticket and provide:\n\n" ++
  "1. **Complexity Assessment** (Low/Medium/High)\n" ++
  "   - Evaluate the technical complexity\n" ++
  "   - Consider scope and number of changes required\n\n" ++
  "2. **Potential Risks**\n" ++
  "   - Identify technical risks\n" ++
  "   - Consider dependencies and integration points\n" ++
  "   - Note any security or performance concerns\n\n" ++
  "3. **Dependencies**\n" ++
  "   - List technical dependencies (APIs, libraries, services)\n" ++
  "   - Identify related tickets or blockers\n" ++
  "   - Note any required infrastructure\n\n" ++
  "4. **Recommended Approach**\n" ++
  "   - Suggest implementation strategy\n" ++
  "   - Recommend breaking down into subtasks if needed\n" ++
  "   - Propose testing strategy\n\n" ++
  "---\n\n" ++
  "## Ticket Details\n\n" ++
  issueDetails ++ "\n"

/-- The `{content, error?}` result shape of `executeAnalyzeTicketPrompt`. -/
structure AnalyzeResult where
  content : String
  error : Option String
  deriving DecidableEq

/-- `executeAnalyzeTicketPrompt` (analyze-ticket.ts:199-228), as a function
of the outcome of the single `jiraClient.getIssue` call inside its try
block (the only throwing operation there). -/
def executeAnalyzeTicketPrompt (getIssueOutcome : Except Thrown JiraIssue) :
    AnalyzeResult :=
  match getIssueOutcome with
  | .ok issue =>
    { content := createAnalysisPromptMessage (formatIssueForAnalysis issue)
      error := none }
  | .error (.jiraApi e) => { content := "", error := some e.message }
  | .error (.otherError m) =>
    { content := "", error := some ("Failed to analyze ticket: " ++ m) }
  | .error .nonError =>
    { content := ""
      error := some "An unexpected error occurred while preparing ticket analysis." }

/-! ## Claim-side definitions and sample data -/

/-- The twelve sections of the report, in the source's fixed order, before
filtering and joining. -/
def issueSections (rt : JsRuntime) (issue : JiraIssue) : Except String (List String) := do
  let customFieldsSection ← formatCustomFieldsSection rt issue.fields
  return ([formatIssueHeader issue,
     formatBasicInformation issue.fields,
     formatPeopleSection issue.fields,
     formatParentIssueSection issue.fields,
     formatDescriptionSection issue.fields,
     formatLabelsSection issue.fields,
     formatFixVersionsSection issue.fields,
     formatRelatedIssuesSection issue.fields,
     customFieldsSection,
     formatCommentsSection rt issue.fields,
     formatTimelineSection rt issue.fields,
     formatIssueLink issue] : List String)

/-- Modelled from the spec: the joining policy the spec mandates for
`formatIssue` — join the non-empty sections with a blank line, and precede
the final View-in-JIRA link line with a horizontal rule. -/
def formatIssueSpecMandated (rt : JsRuntime) (issue : JiraIssue) :
    Except String String := do
  let customFieldsSection ← formatCustomFieldsSection rt issue.fields
  let contentSections : List String :=
    [formatIssueHeader issue,
     formatBasicInformation issue.fields,
     formatPeopleSection issue.fields,
     formatParentIssueSection issue.fields,
     formatDescriptionSection issue.fields,
     formatLabelsSection issue.fields,
     formatFixVersionsSection issue.fields,
     formatRelatedIssuesSection issue.fields,
     customFieldsSection,
     formatCommentsSection rt issue.fields,
     formatTimelineSection rt issue.fields]
  return String.intercalate "\n\n" (contentSections.filter (fun s => s ≠ "")) ++
    "\n\n---\n\n" ++ formatIssueLink issue

/-- A fixed ambient runtime with constant locale renderings. -/
def rtFix : JsRuntime :=
  { localeDate := fun _ => "1/1/2025"
    localeString := fun _ => "1/1/2025, 10:00:00 AM"
    parseJson := fun _ => none
    now := "2025-01-01T00:00:00.000Z"
    random := 0 }

/-- The same deterministic builtins at a different clock instant and
randomness seed. -/
def rtLater : JsRuntime :=
  { localeDate := fun _ => "1/1/2025"
    localeString := fun _ => "1/1/2025, 10:00:00 AM"
    parseJson := fun _ => none
    now := "2099-12-31T23:59:59.000Z"
    random := 12345 }

/-- A minimal issue carrying only the always-present fields. -/
def issue0 : JiraIssue :=
  { key := "PROJ-1"
    self := "https://example.atlassian.net/rest/api/3/issue/10001"
    fields :=
      { summary := "Fix the login flow"
        description := Json.null
        status := { name := "In Progress", statusCategory := { name := "Doing" } }
        assignee := none
        reporter := { displayName := "Jane Doe" }
        priority := { name := "High" }
        created := "2025-01-01T10:00:00.000Z"
        updated := "2025-01-02T15:30:00.000Z"
        labels := []
        fixVersions := []
        issuetype := { name := "Bug" }
        project := { key := "PIX", name := "Pix" }
        parent := none
        issuelinks := none
        comment := none
        customFields := [] } }

/-- The Scenario E issue: key, summary, status and assignee from the
formatter test fixture. -/
def issueE : JiraIssue :=
  { key := "PROJ-1234"
    self := "https://example.atlassian.net/rest/api/3/issue/12345"
    fields :=
      { summary := "Test issue summary"
        description := Json.str "Test description"
        status := { name := "In Progress", statusCategory := { name := "Doing" } }
        assignee := some { displayName := "John Doe" }
        reporter := { displayName := "Jane Doe" }
        priority := { name := "High" }
        created := "2025-01-01T10:00:00.000Z"
        updated := "2025-01-02T15:30:00.000Z"
        labels := ["backend", "bug"]
        fixVersions := []
        issuetype := { name := "Bug" }
        project := { key := "PIX", name := "Pix" }
        parent := none
        issuelinks := none
        comment := none
        customFields := [] } }

/-- `issueE` without an assignee. -/
def issueEUnassigned : JiraIssue :=
  { issueE with fields := { issueE.fields with assignee := none } }

/-- A stub client that always rejects, used to exercise the handler. -/
def clientAlwaysThrows : String → List String → List String → Except Thrown JiraIssue :=
  fun _ _ _ => Except.error Thrown.nonError

instance {ε α : Type} [DecidableEq ε] [DecidableEq α] : DecidableEq (Except ε α) := fun x y =>
  match x, y with
  | .ok a, .ok b => decidable_of_iff (a = b) (by simp)
  | .error a, .error b => decidable_of_iff (a = b) (by simp)
  | .ok _, .error _ => isFalse (by simp)
  | .error _, .ok _ => isFalse (by simp)

/-- A simple array element in the sense of the spec's data model: a scalar,
or a named-object whose `value`/`name` property (whichever the lookup order
selects) is a string. -/
def isSimpleElement : Json → Bool
  | .str _ => true
  | .num _ => true
  | .bool _ => true
  | .null => true
  | .obj fs =>
    (match lookupField fs "value" with
     | some (.str _) => true
     | some _ => false
     | none =>
       match lookupField fs "name" with
       | some (.str _) => true
       | some _ => false
       | none => true)
  | .arr _ => false

/-- The display value a simple element yields: its `value` property, else
its `name` property, else the string itself; absent when empty or when the
element is not extractable (numbers, booleans, null, propertyless
objects). -/
def elementDisplayValue : Json → Option String
  | .str s => if s = "" then none else some s
  | .obj fs =>
    (match lookupField fs "value" with
     | some (.str s) => if s = "" then none else some s
     | some _ => none
     | none =>
       match lookupField fs "name" with
       | some (.str s) => if s = "" then none else some s
       | _ => none)
  | _ => none

/-- The contribution of one mapped element to the joined list. -/
def elementContrib : Option Json → List String
  | some v => if v.truthy then [jsToString v] else []
  | none => []

/-! ## Supporting lemmas -/

theorem lookupField_eq_none_of_any_false {fs : List (String × Json)} {k : String}
    (h : fs.any (fun kv => kv.1 = k) = false) : lookupField fs k = none := by
  unfold lookupField
  rw [List.find?_eq_none.mpr]
  · rfl
  · intro x hx
    exact (List.any_eq_false.mp h) x hx

theorem lookupField_isSome_of_any_true {fs : List (String × Json)} {k : String}
    (h : fs.any (fun kv => kv.1 = k) = true) : ∃ v, lookupField fs k = some v := by
  unfold lookupField
  have hs : (fs.find? (fun kv => kv.1 = k)).isSome := by
    rw [List.find?_isSome]
    simpa using List.any_eq_true.mp h
  obtain ⟨kv, hkv⟩ := Option.isSome_iff_exists.mp hs
  exact ⟨kv.2, by rw [hkv]; rfl⟩

theorem extractArrayItem_isOk (item : Json) : ∃ r, extractArrayItem item = .ok r := by
  cases item with
  | obj fs =>
    cases hv : fs.any (fun kv => kv.1 = "value") with
    | true =>
      exact ⟨Json.getProp (.obj fs) "value",
        by simp [extractArrayItem, jsHasProp, hv, Json.isObjectType, Json.isNull,
          Bind.bind, Except.bind, pure, Except.pure]⟩
    | false =>
      cases hn : fs.any (fun kv => kv.1 = "name") with
      | true =>
        exact ⟨Json.getProp (.obj fs) "name",
          by simp [extractArrayItem, jsHasProp, hv, hn, Json.isObjectType, Json.isNull,
            Bind.bind, Except.bind, pure, Except.pure]⟩
      | false =>
        exact ⟨none,
          by simp [extractArrayItem, jsHasProp, hv, hn, Json.isObjectType, Json.isNull,
            Bind.bind, Except.bind, pure, Except.pure]⟩
  | null =>
    exact ⟨none, by simp [extractArrayItem, jsHasProp, Json.isObjectType, Json.isNull,
      Bind.bind, Except.bind, pure, Except.pure]⟩
  | bool b =>
    exact ⟨none, by simp [extractArrayItem, jsHasProp, Json.isObjectType, Json.isNull,
      Bind.bind, Except.bind, pure, Except.pure]⟩
  | num n =>
    exact ⟨none, by simp [extractArrayItem, jsHasProp, Json.isObjectType, Json.isNull,
      Bind.bind, Except.bind, pure, Except.pure]⟩
  | str s =>
    exact ⟨some (.str s), by simp [extractArrayItem, jsHasProp, Json.isObjectType, Json.isNull,
      Bind.bind, Except.bind, pure, Except.pure]⟩
  | arr xs =>
    exact ⟨none, by simp [extractArrayItem, jsHasProp, Json.isObjectType, Json.isNull,
      Bind.bind, Except.bind, pure, Except.pure]⟩

theorem mapThrow_extractArrayItem_isOk (l : List Json) :
    ∃ rs, mapThrow extractArrayItem l = .ok rs := by
  induction l with
  | nil => exact ⟨[], rfl⟩
  | cons x xs ih =>
    obtain ⟨r, hr⟩ := extractArrayItem_isOk x
    obtain ⟨rs, hrs⟩ := ih
    exact ⟨r :: rs, by simp [mapThrow, hr, hrs, Bind.bind, Except.bind, pure, Except.pure]⟩

theorem extractArrayFieldValue_isOk (values : List Json) :
    ∃ r, extractArrayFieldValue values = .ok r := by
  obtain ⟨rs, hrs⟩ := mapThrow_extractArrayItem_isOk values
  unfold extractArrayFieldValue
  rw [hrs]
  by_cases h : ((rs.filterMap id).filter Json.truthy).length > 0 <;>
    simp [h, Bind.bind, Except.bind, pure, Except.pure]

theorem extractCustomFieldValue_isOk (v : Json) :
    ∃ r, extractCustomFieldValue v = .ok r := by
  cases v with
  | obj fs =>
    cases hv : fs.any (fun kv => kv.1 = "value") with
    | true =>
      exact ⟨Json.getProp (.obj fs) "value",
        by simp [extractCustomFieldValue, jsHasProp, hv, Json.isObjectType, Json.isNull,
          Bind.bind, Except.bind, pure, Except.pure]⟩
    | false =>
      cases hn : fs.any (fun kv => kv.1 = "name") with
      | true =>
        exact ⟨Json.getProp (.obj fs) "name",
          by simp [extractCustomFieldValue, jsHasProp, hv, hn, Json.isObjectType, Json.isNull,
            Bind.bind, Except.bind, pure, Except.pure]⟩
      | false =>
        exact ⟨none,
          by simp [extractCustomFieldValue, jsHasProp, hv, hn, Json.isObjectType, Json.isNull,
            Bind.bind, Except.bind, pure, Except.pure]⟩
  | null =>
    exact ⟨none, by simp [extractCustomFieldValue, jsHasProp, Json.isObjectType, Json.isNull,
      Bind.bind, Except.bind, pure, Except.pure]⟩
  | bool b =>
    exact ⟨none, by simp [extractCustomFieldValue, jsHasProp, Json.isObjectType, Json.isNull,
      Bind.bind, Except.bind, pure, Except.pure]⟩
  | num n =>
    exact ⟨some (.str (toString n)),
      by simp [extractCustomFieldValue, jsHasProp, Json.isObjectType, Json.isNull,
        Bind.bind, Except.bind, pure, Except.pure]⟩
  | str s =>
    exact ⟨some (.str s), by simp [extractCustomFieldValue, jsHasProp, Json.isObjectType,
      Json.isNull, Bind.bind, Except.bind, pure, Except.pure]⟩
  | arr xs =>
    obtain ⟨r, hr⟩ := extractArrayFieldValue_isOk xs
    exact ⟨r.map Json.str, by simp [extractCustomFieldValue, jsHasProp, Json.isObjectType,
      Json.isNull, hr, Bind.bind, Except.bind, pure, Except.pure]⟩

theorem extractArrayItem_simple (x : Json) (h : isSimpleElement x = true) :
    ∃ r, extractArrayItem x = .ok r ∧
      elementContrib r = (elementDisplayValue x).toList := by
  cases x with
  | str s =>
    refine ⟨some (.str s), by simp [extractArrayItem, jsHasProp, Json.isObjectType,
      Json.isNull, Bind.bind, Except.bind, pure, Except.pure], ?_⟩
    by_cases hs : s = "" <;> simp [elementContrib, elementDisplayValue, Json.truthy, jsToString, hs]
  | num n =>
    exact ⟨none, by simp [extractArrayItem, jsHasProp, Json.isObjectType, Json.isNull,
      Bind.bind, Except.bind, pure, Except.pure], by simp [elementContrib, elementDisplayValue]⟩
  | bool b =>
    exact ⟨none, by simp [extractArrayItem, jsHasProp, Json.isObjectType, Json.isNull,
      Bind.bind, Except.bind, pure, Except.pure], by simp [elementContrib, elementDisplayValue]⟩
  | null =>
    exact ⟨none, by simp [extractArrayItem, jsHasProp, Json.isObjectType, Json.isNull,
      Bind.bind, Except.bind, pure, Except.pure], by simp [elementContrib, elementDisplayValue]⟩
  | arr xs => simp [isSimpleElement] at h
  | obj fs =>
    cases hv : fs.any (fun kv => kv.1 = "value") with
    | true =>
      obtain ⟨v, hlv⟩ := lookupField_isSome_of_any_true hv
      have hstep : extractArrayItem (.obj fs) = .ok (some v) := by
        simp [extractArrayItem, jsHasProp, hv, Json.isObjectType, Json.isNull,
          Bind.bind, Except.bind, pure, Except.pure, Json.getProp, hlv]
      cases v with
      | str s =>
        refine ⟨some (.str s), hstep, ?_⟩
        by_cases hs : s = "" <;>
          simp [elementContrib, elementDisplayValue, Json.truthy, jsToString, hlv, hs]
      | null => simp [isSimpleElement, hlv] at h
      | bool b => simp [isSimpleElement, hlv] at h
      | num n => simp [isSimpleElement, hlv] at h
      | arr a => simp [isSimpleElement, hlv] at h
      | obj a => simp [isSimpleElement, hlv] at h
    | false =>
      have hlvn : lookupField fs "value" = none := lookupField_eq_none_of_any_false hv
      cases hn : fs.any (fun kv => kv.1 = "name") with
      | true =>
        obtain ⟨v, hln⟩ := lookupField_isSome_of_any_true hn
        have hstep : extractArrayItem (.obj fs) = .ok (some v) := by
          simp [extractArrayItem, jsHasProp, hv, hn, Json.isObjectType, Json.isNull,
            Bind.bind, Except.bind, pure, Except.pure, Json.getProp, hln]
        cases v with
        | str s =>
          refine ⟨some (.str s), hstep, ?_⟩
          by_cases hs : s = "" <;>
            simp [elementContrib, elementDisplayValue, Json.truthy, jsToString, hlvn, hln, hs]
        | null => simp [isSimpleElement, hlvn, hln] at h
        | bool b => simp [isSimpleElement, hlvn, hln] at h
        | num n => simp [isSimpleElement, hlvn, hln] at h
        | arr a => simp [isSimpleElement, hlvn, hln] at h
        | obj a => simp [isSimpleElement, hlvn, hln] at h
      | false =>
        have hlnn : lookupField fs "name" = none := lookupField_eq_none_of_any_false hn
        refine ⟨none, ?_, by simp [elementContrib, elementDisplayValue, hlvn, hlnn]⟩
        simp [extractArrayItem, jsHasProp, hv, hn, Json.isObjectType, Json.isNull,
          Bind.bind, Except.bind, pure, Except.pure]

theorem mapThrow_simple (values : List Json) (h : ∀ x ∈ values, isSimpleElement x = true) :
    ∃ rs, mapThrow extractArrayItem values = .ok rs ∧
      ((rs.filterMap id).filter Json.truthy).map jsToString =
        values.filterMap elementDisplayValue := by
  induction values with
  | nil => exact ⟨[], rfl, rfl⟩
  | cons x xs ih =>
    obtain ⟨r, hr, hc⟩ := extractArrayItem_simple x (h x (List.mem_cons_self x xs))
    obtain ⟨rs, hrs, hmap⟩ := ih (fun y hy => h y (List.mem_cons_of_mem x hy))
    refine ⟨r :: rs, by simp [mapThrow, hr, hrs, Bind.bind, Except.bind, pure, Except.pure], ?_⟩
    have hsplit : (((r :: rs).filterMap id).filter Json.truthy).map jsToString =
        elementContrib r ++ ((rs.filterMap id).filter Json.truthy).map jsToString := by
      cases r with
      | none => simp [elementContrib]
      | some v =>
        by_cases hv : v.truthy <;> simp [elementContrib, hv]
    rw [hsplit, hc, hmap]
    cases hd : elementDisplayValue x <;> simp [List.filterMap_cons, hd]

/-! ## Claim theorems -/

/-- C1: on the doc → paragraph → text tree whose single paragraph has the
two text children "Hello " and "world", `extractTextFromADF` yields
"Hello \n\nworld" — the generic content-array branch joins the paragraph's
children with a blank line — and not the claimed direct concatenation
"Hello world" (the dedicated paragraph branch joining children with the
empty separator is unreachable). -/
theorem c1_paragraph_children_joined_with_blank_line :
    extractTextFromADF (adfDoc [adfParagraph [adfText "Hello ", adfText "world"]]) =
      "Hello \n\nworld" ∧
    extractTextFromADF (adfDoc [adfParagraph [adfText "Hello ", adfText "world"]]) ≠
      "Hello world" := by
  have h : extractTextFromADF (adfDoc [adfParagraph [adfText "Hello ", adfText "world"]]) =
      "Hello \n\nworld" := by
    simp [extractTextFromADF_eq, adfDoc, adfParagraph, adfText, hasArrayContent,
      contentChildren, Json.getProp, lookupField, Json.truthy, Json.isObjectType,
      optTruthy, jsToString]
    rfl
  exact ⟨h, by rw [h]; decide⟩

/-- C2 (counterexample): on a minimal issue, `formatIssue` does not produce
the spec-mandated joining policy (blank-line separators with a horizontal
rule only before the final View-in-JIRA link): the rule separates every
pair of adjacent non-empty sections. -/
theorem c2_counterexample_rule_not_only_before_link :
    formatIssue rtFix issue0 ≠ formatIssueSpecMandated rtFix issue0 := by decide

/-- C2 (amended): `formatIssue` drops the empty sections and joins the
remaining ones with the horizontal-rule separator `"\n---\n\n"` between
every adjacent pair — not only before the final View-in-JIRA link line;
errors of the section computation propagate unchanged. -/
theorem c2_sections_joined_with_rule_separator (rt : JsRuntime) (issue : JiraIssue) :
    (∀ ss, issueSections rt issue = .ok ss →
      formatIssue rt issue =
        .ok (String.intercalate "\n---\n\n" (ss.filter (fun s => s ≠ "")))) ∧
    (∀ e, issueSections rt issue = .error e → formatIssue rt issue = .error e) := by
  cases h : formatCustomFieldsSection rt issue.fields with
  | ok c =>
    constructor
    · intro ss hss
      simp [issueSections, h] at hss
      subst hss
      simp [formatIssue, h]
    · intro e he
      simp [issueSections, h] at he
  | error e =>
    constructor
    · intro ss hss
      simp [issueSections, h] at hss
    · intro e' he
      simp [issueSections, h] at he
      subst he
      simp [formatIssue, h]

/-- C2 (witness): the amended statement evaluated on the minimal issue. -/
theorem c2_sections_joined_with_rule_separator_witness :
    formatIssue rtFix issue0 =
      .ok (String.intercalate "\n---\n\n"
        (([formatIssueHeader issue0,
           formatBasicInformation issue0.fields,
           formatPeopleSection issue0.fields,
           formatParentIssueSection issue0.fields,
           formatDescriptionSection issue0.fields,
           formatLabelsSection issue0.fields,
           formatFixVersionsSection issue0.fields,
           formatRelatedIssuesSection issue0.fields,
           "",
           formatCommentsSection rtFix issue0.fields,
           formatTimelineSection rtFix issue0.fields,
           formatIssueLink issue0] : List String).filter (fun s => s ≠ ""))) :=
  (c2_sections_joined_with_rule_separator rtFix issue0).1 _ rfl

/-- C3: for a non-2xx response, the rejection carries the fixed user-facing
message and the exact status code for 401/403/404/429/500/502/503; any
other non-2xx status carries the extracted message — the joined
`errorMessages`, or the formatted field errors, or (when the body fails to
parse) the HTTP status text, or, when that is empty, the generic
"request failed with status N" message. -/
theorem c3_status_code_mapping (r : HttpResponse)
    (hne : ¬(200 ≤ r.status ∧ r.status ≤ 299)) :
    (r.status = 401 → jiraRequest (.success r) =
      .error { message := "Authentication failed. Please check your JIRA email and API token.",
               statusCode := some 401 }) ∧
    (r.status = 403 → jiraRequest (.success r) =
      .error { message := "Access denied. You do not have permission to access this resource.",
               statusCode := some 403 }) ∧
    (r.status = 404 → jiraRequest (.success r) =
      .error { message := "The requested JIRA issue was not found.", statusCode := some 404 }) ∧
    (r.status = 429 → jiraRequest (.success r) =
      .error { message := "Rate limit exceeded. Please try again later.",
               statusCode := some 429 }) ∧
    (r.status = 500 ∨ r.status = 502 ∨ r.status = 503 → jiraRequest (.success r) =
      .error { message := "JIRA service is currently unavailable. Please try again later.",
               statusCode := some r.status }) ∧
    (r.status ∉ ([401, 403, 404, 429, 500, 502, 503] : List Nat) →
      jiraRequest (.success r) =
        .error { message := extractErrorMessage r.status r.statusText r.errorBody,
                 statusCode := some r.status } ∧
      (∀ msgs, r.errorBody = some { errorMessages := some msgs, errors := none } →
        msgs.length > 0 → String.intercalate ", " msgs ≠ "" →
        extractErrorMessage r.status r.statusText r.errorBody =
          String.intercalate ", " msgs) ∧
      (∀ es, r.errorBody = some { errorMessages := none, errors := some es } →
        String.intercalate ", " (es.map (fun p => p.1 ++ ": " ++ p.2)) ≠ "" →
        extractErrorMessage r.status r.statusText r.errorBody =
          String.intercalate ", " (es.map (fun p => p.1 ++ ": " ++ p.2))) ∧
      (r.errorBody = none →
        extractErrorMessage r.status r.statusText r.errorBody =
          (if r.statusText = "" then "JIRA API request failed with status " ++ toString r.status
           else r.statusText))) := by
  refine ⟨?_, ?_, ?_, ?_, ?_, ?_⟩
  · intro h; simp [jiraRequest, h, createUserFriendlyException, fixedStatusMessage]
  · intro h; simp [jiraRequest, h, createUserFriendlyException, fixedStatusMessage]
  · intro h; simp [jiraRequest, h, createUserFriendlyException, fixedStatusMessage]
  · intro h; simp [jiraRequest, h, createUserFriendlyException, fixedStatusMessage]
  · rintro (h | h | h) <;>
      simp [jiraRequest, h, createUserFriendlyException, fixedStatusMessage]
  · intro hnot
    simp only [List.mem_cons, List.not_mem_nil, or_false, not_or] at hnot
    obtain ⟨h1, h2, h3, h4, h5, h6, h7⟩ := hnot
    refine ⟨?_, ?_, ?_, ?_⟩
    · simp [jiraRequest, hne, createUserFriendlyException, fixedStatusMessage,
        h1, h2, h3, h4, h5, h6, h7]
    · intro msgs hb hlen hne2
      simp [extractErrorMessage, hb, parseJiraErrorData, hlen, hne2]
    · intro es hb hne2
      simp [extractErrorMessage, hb, parseJiraErrorData, hne2]
    · intro hb
      simp [extractErrorMessage, hb]

/-- C3 (witness): a 404 maps to the fixed not-found message, and an
unmapped 418 with a parsed error body carries the joined body messages. -/
theorem c3_status_code_mapping_witness :
    jiraRequest (.success ⟨404, "Not Found", none, none⟩) =
      .error ⟨"The requested JIRA issue was not found.", some 404⟩ ∧
    jiraRequest (.success ⟨418, "", none, some ⟨some ["a", "b"], none⟩⟩) =
      .error ⟨"a, b", some 418⟩ := by
  constructor
  · exact (c3_status_code_mapping _ (by decide)).2.2.1 rfl
  · have h6 := (c3_status_code_mapping ⟨418, "", none, some ⟨some ["a", "b"], none⟩⟩
      (by decide)).2.2.2.2.2 (by decide)
    have hmsg := h6.2.1 ["a", "b"] rfl (by decide) (by decide)
    rw [h6.1, hmsg]
    rfl

/-- C4: the custom-field extractors are total on JSON values — they always
return a value (never a thrown `Except.error`), and unrecognized shapes
(booleans, null) yield absence rather than an error. -/
theorem c4_extractors_total :
    (∀ v : Json, ∃ r, extractCustomFieldValue v = Except.ok r) ∧
    (∀ values : List Json, ∃ r, extractArrayFieldValue values = Except.ok r) ∧
    (∀ b, extractCustomFieldValue (Json.bool b) = Except.ok none) ∧
    extractCustomFieldValue Json.null = Except.ok none := by
  refine ⟨extractCustomFieldValue_isOk, extractArrayFieldValue_isOk, ?_, ?_⟩
  · intro b
    simp [extractCustomFieldValue, jsHasProp, Json.isObjectType, Json.isNull,
      Bind.bind, Except.bind, pure, Except.pure]
  · simp [extractCustomFieldValue, jsHasProp, Json.isObjectType, Json.isNull,
      Bind.bind, Except.bind, pure, Except.pure]

/-- C5: on an array of named-objects and scalars, `extractArrayFieldValue`
returns the extractable element display values joined with `", "` in input
order, and absence (`none`, not the empty string) when the array is empty
or no element yields a non-empty value. -/
theorem c5_array_extraction_order_join_absence (values : List Json)
    (h : ∀ x ∈ values, isSimpleElement x = true) :
    extractArrayFieldValue values =
      .ok (if (values.filterMap elementDisplayValue).isEmpty then none
           else some (String.intercalate ", " (values.filterMap elementDisplayValue))) := by
  obtain ⟨rs, hrs, hmap⟩ := mapThrow_simple values h
  unfold extractArrayFieldValue
  rw [hrs]
  have hlen : ((rs.filterMap id).filter Json.truthy).length =
      (values.filterMap elementDisplayValue).length := by
    rw [← hmap]; simp
  by_cases hp : 0 < ((rs.filterMap id).filter Json.truthy).length
  · have hne : (values.filterMap elementDisplayValue).isEmpty = false := by
      rw [List.isEmpty_eq_false_iff_exists_mem]
      have : 0 < (values.filterMap elementDisplayValue).length := hlen ▸ hp
      exact List.exists_mem_of_length_pos this
    simp [hp, hne, Bind.bind, Except.bind, pure, Except.pure, hmap]
  · have he : (values.filterMap elementDisplayValue).isEmpty = true := by
      rw [List.isEmpty_iff_length_eq_zero]; omega
    simp [hp, he, Bind.bind, Except.bind, pure, Except.pure]

/-- The sample multi-select field value for the C5 witness. -/
def c5SampleValues : List Json :=
  [Json.obj [("name", Json.str "Team A")],
   Json.obj [("name", Json.str "Team B")],
   Json.str "",
   Json.num 7]

/-- C5 (witness): two named objects, an empty string and a number yield the
two team names joined in order. -/
theorem c5_array_extraction_order_join_absence_witness :
    extractArrayFieldValue c5SampleValues = .ok (some "Team A, Team B") := by
  rw [c5_array_extraction_order_join_absence c5SampleValues (by decide)]
  rfl

/-- C6: `formatIssueSummary` is exactly the single line
`{key}: {summary} [{status name}] - {assignee display name}`, with the
literal `Unassigned` when the assignee is absent; in particular Scenario E
evaluates to the exact expected line. -/
theorem c6_format_issue_summary :
    (∀ issue : JiraIssue, formatIssueSummary issue =
      issue.key ++ ": " ++ issue.fields.summary ++ " [" ++ issue.fields.status.name ++
        "] - " ++
        (match issue.fields.assignee with
         | some u => u.displayName
         | none => "Unassigned")) ∧
    formatIssueSummary issueE = "PROJ-1234: Test issue summary [In Progress] - John Doe" ∧
    formatIssueSummary issueEUnassigned =
      "PROJ-1234: Test issue summary [In Progress] - Unassigned" := by
  refine ⟨fun issue => rfl, by decide, by decide⟩

/-- C7: the analyze-ticket prompt builder returns the typed API exception's
message verbatim, wraps other errors as "Failed to analyze ticket: {cause}",
maps non-Error thrown values to the fixed fallback, and produces the empty
content string in every error case. -/
theorem c7_analyze_prompt_error_mapping :
    (∀ e : JiraApiException, executeAnalyzeTicketPrompt (.error (.jiraApi e)) =
      { content := "", error := some e.message }) ∧
    (∀ m : String, executeAnalyzeTicketPrompt (.error (.otherError m)) =
      { content := "", error := some ("Failed to analyze ticket: " ++ m) }) ∧
    executeAnalyzeTicketPrompt (.error .nonError) =
      { content := ""
        error := some "An unexpected error occurred while preparing ticket analysis." } ∧
    (∀ t : Thrown, (executeAnalyzeTicketPrompt (.error t)).content = "") := by
  refine ⟨fun e => rfl, fun m => rfl, rfl, fun t => ?_⟩
  cases t <;> rfl

/-- C8: a key that fails the `^[A-Z]+-\d+$` pattern makes the get_issue
handler reject with the validation error — distinct from any API-exception
response — and issue no request to the client at all, for every client and
runtime. -/
theorem c8_invalid_key_rejected_before_network (rt : JsRuntime) (issueKey : String)
    (includeComments : Bool)
    (getIssue : String → List String → List String → Except Thrown JiraIssue)
    (h : issueKeyMatches issueKey = false) :
    runGetIssueHandler rt issueKey includeComments getIssue =
      (ToolOutcome.validationError issueKeyPatternMessage, []) := by
  simp [runGetIssueHandler, h]

/-- C8 (witness): the key "invalid" fails the pattern and is rejected with
no network call. -/
theorem c8_invalid_key_rejected_before_network_witness :
    issueKeyMatches "invalid" = false ∧
    runGetIssueHandler rtFix "invalid" true clientAlwaysThrows =
      (ToolOutcome.validationError issueKeyPatternMessage, []) :=
  ⟨by decide,
   c8_invalid_key_rejected_before_network rtFix "invalid" true clientAlwaysThrows (by decide)⟩

/-- C9: `formatIssue` is deterministic — its output is invariant under the
ambient clock and randomness source, depending only on the issue and the
fixed deterministic locale/parse builtins. -/
theorem c9_format_issue_deterministic (a b : JsRuntime)
    (hd : a.localeDate = b.localeDate) (hs : a.localeString = b.localeString)
    (hp : a.parseJson = b.parseJson) :
    ∀ issue : JiraIssue, formatIssue a issue = formatIssue b issue := by
  intro issue
  obtain ⟨ad, as, ap, an, ar⟩ := a
  obtain ⟨bd, bs, bp, bn, br⟩ := b
  simp only at hd hs hp
  subst hd hs hp
  rfl

/-- C9 (witness): two runtimes that differ in clock and randomness but share
the deterministic builtins format the sample issue identically. -/
theorem c9_format_issue_deterministic_witness :
    rtFix.now ≠ rtLater.now ∧ rtFix.random ≠ rtLater.random ∧
    formatIssue rtFix issueE = formatIssue rtLater issueE :=
  ⟨by decide, by decide,
   c9_format_issue_deterministic rtFix rtLater rfl rfl rfl issueE⟩

/-- C10: a 2xx response whose body is not valid JSON makes the client raise
the typed exception with the generic connectivity message and no status
code — identical to the transport-level failure rejection. -/
theorem c10_unparseable_success_body_reported_as_connectivity_failure
    (r : HttpResponse) (h2xx : 200 ≤ r.status ∧ r.status ≤ 299)
    (hbody : r.okBody = none) :
    jiraRequest (.success r) =
      .error { message := connectionErrorMessage, statusCode := none } ∧
    jiraRequest (.success r) = jiraRequest .networkFailure := by
  constructor <;> simp [jiraRequest, h2xx, hbody]

/-- C10 (witness): a 200 response with an unparseable body. -/
theorem c10_unparseable_success_body_reported_as_connectivity_failure_witness :
    jiraRequest (.success ⟨200, "OK", none, none⟩) =
      .error ⟨connectionErrorMessage, none⟩ :=
  (c10_unparseable_success_body_reported_as_connectivity_failure _ (by decide) rfl).1

end PixMcps
